import Mathlib

/-
Verification of the seat-reservation core of `src/app.py` (TuRifa-Online).

The program keeps a table of `Boleto` rows (seat label `asiento`, status
`estado` in {DISPONIBLE, RESERVADO, VENDIDO}, UNIX deadline `tiempo_limite`,
0 when no hold is active).  We embed the table as a `List Boleto` and the
three endpoints plus the expiry sweep as pure functions of the table and an
explicit clock value `ahora` (the Python code reads `int(time.time())`).
-/

namespace TuRifa

/-- The three values stored in `Boleto.estado` (app.py line 32). -/
inductive Estado where
  | DISPONIBLE
  | RESERVADO
  | VENDIDO
deriving DecidableEq

/-- One row of the `boletos` table (app.py lines 26-34).  The SQL `id`
column is omitted: no endpoint reads or writes it after initialization. -/
structure Boleto where
  asiento : String
  estado : Estado
  tiempo_limite : Nat
deriving DecidableEq

/-- app.py line 23: hold duration in seconds. -/
def RESERVA_DURACION_SEGUNDOS : Nat := 30

/-- The per-row effect of `liberar_reservas_expiradas` (app.py lines 69-76):
a row that is RESERVADO with `tiempo_limite < ahora` is reset to
DISPONIBLE with deadline 0; any other row is untouched. -/
def sweepOne (ahora : Nat) (b : Boleto) : Boleto :=
  if b.estado = Estado.RESERVADO ∧ b.tiempo_limite < ahora then
    { b with estado := Estado.DISPONIBLE, tiempo_limite := 0 }
  else b

/-- app.py lines 62-80: release every expired reservation in the table. -/
def liberar_reservas_expiradas (ahora : Nat) (boletos : List Boleto) : List Boleto :=
  boletos.map (sweepOne ahora)

/-- `Boleto.query.filter_by(asiento=nombre).first()` (app.py lines 100, 139):
the first row whose label matches. -/
def findB (nombre : String) (boletos : List Boleto) : Option Boleto :=
  boletos.find? (fun b => b.asiento == nombre)

/-- Mutating the row returned by `.first()` and committing: update the
status and deadline of the first row whose label matches. -/
def setBoleto (boletos : List Boleto) (nombre : String) (e : Estado) (t : Nat) :
    List Boleto :=
  match boletos with
  | [] => []
  | b :: rest =>
    if b.asiento = nombre then { b with estado := e, tiempo_limite := t } :: rest
    else b :: setBoleto rest nombre e t

/-- The observable outcome of the reserve/purchase endpoints: 404, or a
200/409 JSON body carrying an `estado` field (app.py lines 102-132, 141-166). -/
inductive ApiResult where
  | notFound
  | success (estado : Estado)
  | conflict (estado : Estado)
deriving DecidableEq

/-- HTTP status code attached to each outcome (app.py lines 103, 120, 132,
142, 155, 166). -/
def statusCode : ApiResult → Nat
  | ApiResult.notFound => 404
  | ApiResult.success _ => 200
  | ApiResult.conflict _ => 409

/-- app.py lines 84-92 (`get_boletos`): sweep the full table, then return
every row.  The returned snapshot is the swept table itself. -/
def get_boletos (ahora : Nat) (boletos : List Boleto) : List Boleto :=
  liberar_reservas_expiradas ahora boletos

/-- The part of `reservar_boleto` after the preventive sweep
(app.py lines 100-132), acting on the already-swept table. -/
def reservar_tras_limpieza (nombre : String) (ahora : Nat) (limpios : List Boleto) :
    ApiResult × List Boleto :=
  match findB nombre limpios with
  | none => (ApiResult.notFound, limpios)
  | some b =>
    if b.estado = Estado.DISPONIBLE then
      (ApiResult.success Estado.RESERVADO,
        setBoleto limpios nombre Estado.RESERVADO (ahora + RESERVA_DURACION_SEGUNDOS))
    else
      (ApiResult.conflict b.estado, limpios)

/-- app.py lines 95-132 (`reservar_boleto`): preventive full sweep (line 99),
then 404 / reserve / 409 on the named row. -/
def reservar_boleto (nombre : String) (ahora : Nat) (boletos : List Boleto) :
    ApiResult × List Boleto :=
  reservar_tras_limpieza nombre ahora (liberar_reservas_expiradas ahora boletos)

/-- app.py lines 135-166 (`comprar_boleto`): NO sweep, no clock read; 404 if
the label is unknown, sale if the row is RESERVADO, 409 otherwise. -/
def comprar_boleto (nombre : String) (boletos : List Boleto) :
    ApiResult × List Boleto :=
  match findB nombre boletos with
  | none => (ApiResult.notFound, boletos)
  | some b =>
    if b.estado = Estado.RESERVADO then
      (ApiResult.success Estado.VENDIDO, setBoleto boletos nombre Estado.VENDIDO 0)
    else
      (ApiResult.conflict b.estado, boletos)

/-- app.py lines 51-54: 200 seats `A1`..`A200`, all DISPONIBLE, deadline 0
(column default, line 34). -/
def tabla_inicial : List Boleto :=
  (List.range 200).map (fun i =>
    { asiento := "A" ++ toString (i + 1), estado := Estado.DISPONIBLE,
      tiempo_limite := 0 })

/-- One externally triggerable operation of the program, with the clock
value it observes (purchase reads no clock). -/
inductive Op where
  | lista (t : Nat)
  | reserva (n : String) (t : Nat)
  | compra (n : String)

/-- The table produced by one operation. -/
def applyOp : Op → List Boleto → List Boleto
  | Op.lista t, bs => get_boletos t bs
  | Op.reserva n t, bs => (reservar_boleto n t bs).2
  | Op.compra n, bs => (comprar_boleto n bs).2

/-- The table produced by a sequence of operations, first one first. -/
def applyOps : List Op → List Boleto → List Boleto
  | [], bs => bs
  | o :: os, bs => applyOps os (applyOp o bs)

/-- The spec's per-row invariant (spec section 8, first bullet): a row is
RESERVADO exactly when its deadline is positive, and a non-RESERVADO row
carries deadline 0. -/
def invBoleto (b : Boleto) : Prop :=
  (b.estado = Estado.RESERVADO ↔ 0 < b.tiempo_limite) ∧
  (b.estado ≠ Estado.RESERVADO → b.tiempo_limite = 0)

instance (b : Boleto) : Decidable (invBoleto b) := by
  unfold invBoleto
  infer_instance

/-- The invariant over the whole table. -/
def invTabla (bs : List Boleto) : Prop := ∀ b ∈ bs, invBoleto b

instance (bs : List Boleto) : Decidable (invTabla bs) := by
  unfold invTabla
  infer_instance

/-- Purchase as the claim words it: first release the expired reservations
for the touched seat (here: the full preventive sweep the other endpoints
run), then apply the purchase transition.  `comprar_boleto` above is the
code's actual behavior; this definition exists only to be compared with it. -/
def comprar_boleto_spec (nombre : String) (ahora : Nat) (boletos : List Boleto) :
    ApiResult × List Boleto :=
  comprar_boleto nombre (liberar_reservas_expiradas ahora boletos)

/-- A two-seat table used by the concrete witnesses: one free seat and one
reservation that expires at UNIX time 5. -/
def mesa2 : List Boleto :=
  [{ asiento := "A1", estado := Estado.DISPONIBLE, tiempo_limite := 0 },
   { asiento := "A2", estado := Estado.RESERVADO, tiempo_limite := 5 }]

/-- A one-seat table holding a sold seat. -/
def mesaVendida : List Boleto :=
  [{ asiento := "A1", estado := Estado.VENDIDO, tiempo_limite := 0 }]

/-- A one-seat table holding a reservation that expires at UNIX time 5. -/
def mesaReservada : List Boleto :=
  [{ asiento := "A1", estado := Estado.RESERVADO, tiempo_limite := 5 }]

/-! ## Helper lemmas -/

/-- The sweep never changes a row's label. -/
theorem sweepOne_asiento (t : Nat) (b : Boleto) : (sweepOne t b).asiento = b.asiento := by
  unfold sweepOne
  split <;> rfl

/-- The sweep leaves a non-RESERVADO row untouched. -/
theorem sweepOne_of_ne_reservado (t : Nat) (b : Boleto)
    (h : b.estado ≠ Estado.RESERVADO) : sweepOne t b = b := by
  unfold sweepOne
  rw [if_neg]
  intro hc
  exact h hc.1

/-- The sweep leaves a not-yet-expired RESERVADO row untouched. -/
theorem sweepOne_of_not_expired (t : Nat) (b : Boleto)
    (h : ¬ b.tiempo_limite < t) : sweepOne t b = b := by
  unfold sweepOne
  rw [if_neg]
  intro hc
  exact h hc.2

/-- The sweep is a single application of `sweepOne` per row. -/
theorem sweepOne_idem (t : Nat) (b : Boleto) :
    sweepOne t (sweepOne t b) = sweepOne t b := by
  by_cases h : b.estado = Estado.RESERVADO ∧ b.tiempo_limite < t
  · simp [sweepOne, h]
  · simp [sweepOne, h]

/-- Row lookup commutes with the sweep: the first match after sweeping is
the sweep of the first match before. -/
theorem findB_liberar (n : String) (t : Nat) (bs : List Boleto) :
    findB n (liberar_reservas_expiradas t bs) = (findB n bs).map (sweepOne t) := by
  induction bs with
  | nil => rfl
  | cons a rest ih =>
    by_cases h : a.asiento = n
    · have h1 : (a.asiento == n) = true := by simpa using h
      have h2 : ((sweepOne t a).asiento == n) = true := by
        rw [sweepOne_asiento]; exact h1
      simp [liberar_reservas_expiradas, findB, List.find?_cons, h1, h2]
    · have h1 : (a.asiento == n) = false := by simpa using h
      have h2 : ((sweepOne t a).asiento == n) = false := by
        rw [sweepOne_asiento]; exact h1
      simp only [liberar_reservas_expiradas, List.map_cons, findB,
        List.find?_cons, h1, h2] at *
      exact ih

/-- Updating the named row rewrites exactly the first match of `findB`. -/
theorem findB_setBoleto_self (bs : List Boleto) (n : String) (e : Estado) (t : Nat) :
    findB n (setBoleto bs n e t) =
      (findB n bs).map (fun b => { b with estado := e, tiempo_limite := t }) := by
  induction bs with
  | nil => rfl
  | cons a rest ih =>
    by_cases h : a.asiento = n
    · have h1 : (a.asiento == n) = true := by simpa using h
      have h2 : (({ a with estado := e, tiempo_limite := t } : Boleto).asiento == n) = true := h1
      simp [setBoleto, if_pos h, findB, List.find?_cons, h1, h2]
    · have h1 : (a.asiento == n) = false := by simpa using h
      simp only [setBoleto, if_neg h, findB, List.find?_cons, h1] at *
      exact ih

/-- Updating one label leaves lookups of any other label untouched. -/
theorem findB_setBoleto_other (bs : List Boleto) (m n : String) (e : Estado) (t : Nat)
    (hmn : m ≠ n) :
    findB n (setBoleto bs m e t) = findB n bs := by
  induction bs with
  | nil => rfl
  | cons a rest ih =>
    by_cases h : a.asiento = m
    · have han : ¬ a.asiento = n := by rw [h]; exact hmn
      have h2 : (a.asiento == n) = false := by simpa using han
      have h3 : (({ a with estado := e, tiempo_limite := t } : Boleto).asiento == n) = false := h2
      simp [setBoleto, if_pos h, findB, List.find?_cons, h2, h3]
    · by_cases hn : a.asiento = n
      · have h1 : (a.asiento == n) = true := by simpa using hn
        simp [setBoleto, if_neg h, findB, List.find?_cons, h1]
      · have h1 : (a.asiento == n) = false := by simpa using hn
        simp only [setBoleto, if_neg h, findB, List.find?_cons, h1] at *
        exact ih

/-- Position-indexed view of the sweep. -/
theorem liberar_getElem? (t : Nat) (bs : List Boleto) (i : Nat) :
    (liberar_reservas_expiradas t bs)[i]? = (bs[i]?).map (sweepOne t) := by
  induction bs generalizing i with
  | nil => simp [liberar_reservas_expiradas]
  | cons a rest ih =>
    cases i with
    | zero => simp [liberar_reservas_expiradas]
    | succ j =>
      simp only [liberar_reservas_expiradas, List.map_cons, List.getElem?_cons_succ] at *
      exact ih j

/-- `setBoleto` leaves every position whose row has a different label as it was. -/
theorem setBoleto_getElem?_other (bs : List Boleto) (n : String) (e : Estado) (t : Nat)
    (i : Nat) (b : Boleto) (hb : bs[i]? = some b) (hn : b.asiento ≠ n) :
    (setBoleto bs n e t)[i]? = some b := by
  induction bs generalizing i with
  | nil => simp at hb
  | cons a rest ih =>
    cases i with
    | zero =>
      simp only [List.getElem?_cons_zero, Option.some.injEq] at hb
      subst hb
      simp [setBoleto, if_neg hn]
    | succ j =>
      simp only [List.getElem?_cons_succ] at hb
      by_cases h : a.asiento = n
      · simp only [setBoleto, if_pos h, List.getElem?_cons_succ]
        exact hb
      · simp only [setBoleto, if_neg h, List.getElem?_cons_succ]
        exact ih j hb

/-- `setBoleto` keeps the table length. -/
theorem setBoleto_length (bs : List Boleto) (n : String) (e : Estado) (t : Nat) :
    (setBoleto bs n e t).length = bs.length := by
  induction bs with
  | nil => rfl
  | cons a rest ih =>
    by_cases h : a.asiento = n
    · simp [setBoleto, if_pos h]
    · simp [setBoleto, if_neg h, ih]

/-- The sweep keeps the table length. -/
theorem liberar_length (t : Nat) (bs : List Boleto) :
    (liberar_reservas_expiradas t bs).length = bs.length := by
  simp [liberar_reservas_expiradas]

/-- Sweeping twice at the same clock value is sweeping once. -/
theorem liberar_idem (t : Nat) (bs : List Boleto) :
    liberar_reservas_expiradas t (liberar_reservas_expiradas t bs) =
      liberar_reservas_expiradas t bs := by
  induction bs with
  | nil => rfl
  | cons a rest ih =>
    simp only [liberar_reservas_expiradas, List.map_cons] at *
    rw [sweepOne_idem]
    rw [ih]

/-- Unfolding equation of `comprar_boleto`: unknown label. -/
theorem comprar_boleto_none (bs : List Boleto) (n : String)
    (hf : findB n bs = none) :
    comprar_boleto n bs = (ApiResult.notFound, bs) := by
  simp [comprar_boleto, hf]

/-- Unfolding equation of `comprar_boleto`: sale of a RESERVADO row. -/
theorem comprar_boleto_vende (bs : List Boleto) (n : String) (b : Boleto)
    (hf : findB n bs = some b) (hr : b.estado = Estado.RESERVADO) :
    comprar_boleto n bs =
      (ApiResult.success Estado.VENDIDO, setBoleto bs n Estado.VENDIDO 0) := by
  simp [comprar_boleto, hf, hr]

/-- Unfolding equation of `comprar_boleto`: conflict on a non-RESERVADO row. -/
theorem comprar_boleto_conflicto (bs : List Boleto) (n : String) (b : Boleto)
    (hf : findB n bs = some b) (hr : ¬ b.estado = Estado.RESERVADO) :
    comprar_boleto n bs = (ApiResult.conflict b.estado, bs) := by
  simp [comprar_boleto, hf, hr]

/-- The sweep preserves the deadline invariant. -/
theorem invTabla_liberar (t : Nat) (bs : List Boleto) (h : invTabla bs) :
    invTabla (liberar_reservas_expiradas t bs) := by
  intro b hb
  simp only [liberar_reservas_expiradas, List.mem_map] at hb
  obtain ⟨a, ha, rfl⟩ := hb
  by_cases hc : a.estado = Estado.RESERVADO ∧ a.tiempo_limite < t
  · simp [sweepOne, if_pos hc, invBoleto]
  · unfold sweepOne
    rw [if_neg hc]
    exact h a ha

/-- Writing a status/deadline pair that itself satisfies the invariant
preserves the table invariant. -/
theorem invTabla_setBoleto (bs : List Boleto) (n : String) (e : Estado) (t : Nat)
    (h : invTabla bs) (he : e = Estado.RESERVADO ↔ 0 < t) :
    invTabla (setBoleto bs n e t) := by
  induction bs with
  | nil => intro b hb; cases hb
  | cons a rest ih =>
    have ha : invBoleto a := h a (List.mem_cons_self a rest)
    have hrest : invTabla rest := fun x hx => h x (List.mem_cons_of_mem a hx)
    intro b hb
    by_cases hc : a.asiento = n
    · simp only [setBoleto, if_pos hc, List.mem_cons] at hb
      rcases hb with rfl | hb
      · refine ⟨he, fun hne => ?_⟩
        have hnp : ¬ 0 < t := fun hp => hne (he.mpr hp)
        show t = 0
        omega
      · exact hrest b hb
    · simp only [setBoleto, if_neg hc, List.mem_cons] at hb
      rcases hb with rfl | hb
      · exact ha
      · exact ih hrest b hb

/-! ## Claim theorems -/

/-- Claim C1: reserving an AVAILABLE seat at time T with the configured
30-second hold yields success RESERVADO and writes deadline T+30 on the
seat; any later reserve call on the same label at a clock value strictly
below that deadline (from any table still holding that reservation) returns
Conflict(RESERVADO) and leaves the seat's status and deadline untouched. -/
theorem C1_reservar_disponible_luego_conflicto (bs : List Boleto) (n : String)
    (T : Nat) (b : Boleto)
    (hfind : findB n bs = some b) (hav : b.estado = Estado.DISPONIBLE) :
    RESERVA_DURACION_SEGUNDOS = 30 ∧
    (reservar_boleto n T bs).1 = ApiResult.success Estado.RESERVADO ∧
    findB n (reservar_boleto n T bs).2 =
      some { b with estado := Estado.RESERVADO,
                    tiempo_limite := T + RESERVA_DURACION_SEGUNDOS } ∧
    (∀ bs2 Tp, Tp < T + RESERVA_DURACION_SEGUNDOS →
      findB n bs2 =
        some { b with estado := Estado.RESERVADO,
                      tiempo_limite := T + RESERVA_DURACION_SEGUNDOS } →
      (reservar_boleto n Tp bs2).1 = ApiResult.conflict Estado.RESERVADO ∧
      findB n (reservar_boleto n Tp bs2).2 =
        some { b with estado := Estado.RESERVADO,
                      tiempo_limite := T + RESERVA_DURACION_SEGUNDOS }) := by
  have hsb : sweepOne T b = b := by
    apply sweepOne_of_ne_reservado
    rw [hav]
    intro hc
    cases hc
  have hsw : findB n (liberar_reservas_expiradas T bs) = some b := by
    rw [findB_liberar, hfind]
    simp [hsb]
  refine ⟨rfl, ?_, ?_, ?_⟩
  · simp [reservar_boleto, reservar_tras_limpieza, hsw, hav]
  · simp [reservar_boleto, reservar_tras_limpieza, hsw, hav, findB_setBoleto_self]
  · intro bs2 Tp hTp hf2
    have hsb1 :
        sweepOne Tp { b with estado := Estado.RESERVADO,
                             tiempo_limite := T + RESERVA_DURACION_SEGUNDOS } =
          { b with estado := Estado.RESERVADO,
                   tiempo_limite := T + RESERVA_DURACION_SEGUNDOS } := by
      apply sweepOne_of_not_expired
      show ¬ T + RESERVA_DURACION_SEGUNDOS < Tp
      omega
    have hsw2 : findB n (liberar_reservas_expiradas Tp bs2) =
        some { b with estado := Estado.RESERVADO,
                      tiempo_limite := T + RESERVA_DURACION_SEGUNDOS } := by
      rw [findB_liberar, hf2]
      simp [hsb1]
    have hne :
        ¬ ({ b with estado := Estado.RESERVADO,
                    tiempo_limite := T + RESERVA_DURACION_SEGUNDOS } : Boleto).estado =
          Estado.DISPONIBLE := by
      simp
    constructor
    · simp [reservar_boleto, reservar_tras_limpieza, hsw2, hne]
    · simp [reservar_boleto, reservar_tras_limpieza, hsw2, hne]

/-- Claim C2: after every operation (and in the initial table) a row is
RESERVADO exactly when its deadline is positive, and a DISPONIBLE or
VENDIDO row carries deadline 0. -/
theorem C2_invariante_tiempo_limite (bs : List Boleto) (n : String) (t : Nat)
    (h : invTabla bs) :
    invTabla tabla_inicial ∧
    invTabla (get_boletos t bs) ∧
    invTabla (liberar_reservas_expiradas t bs) ∧
    invTabla (reservar_boleto n t bs).2 ∧
    invTabla (comprar_boleto n bs).2 := by
  have hl := invTabla_liberar t bs h
  refine ⟨?_, hl, hl, ?_, ?_⟩
  · intro b hb
    simp only [tabla_inicial, List.mem_map] at hb
    obtain ⟨i, _, rfl⟩ := hb
    simp [invBoleto]
  · cases hf : findB n (liberar_reservas_expiradas t bs) with
    | none =>
      simp only [reservar_boleto, reservar_tras_limpieza, hf]
      exact hl
    | some b =>
      by_cases hd : b.estado = Estado.DISPONIBLE
      · simp only [reservar_boleto, reservar_tras_limpieza, hf, hd, if_true]
        apply invTabla_setBoleto _ _ _ _ hl
        simp [RESERVA_DURACION_SEGUNDOS]
      · simp only [reservar_boleto, reservar_tras_limpieza, hf, if_neg hd]
        exact hl
  · cases hf : findB n bs with
    | none =>
      simp only [comprar_boleto, hf]
      exact h
    | some b =>
      by_cases hd : b.estado = Estado.RESERVADO
      · simp only [comprar_boleto, hf, hd, if_true]
        apply invTabla_setBoleto _ _ _ _ h
        simp
      · simp only [comprar_boleto, hf, if_neg hd]
        exact h

/-- Claim C3: the sweep is a per-row map that releases a RESERVADO row
(status DISPONIBLE, deadline 0) exactly when the clock is strictly past
its deadline, leaves it untouched when the clock is at or before the
deadline, and is idempotent at a fixed clock value. -/
theorem C3_limpieza_puntual_idempotente (b : Boleto) (now : Nat) (bs : List Boleto)
    (hr : b.estado = Estado.RESERVADO) :
    liberar_reservas_expiradas now bs = bs.map (sweepOne now) ∧
    (b.tiempo_limite < now →
      sweepOne now b = { b with estado := Estado.DISPONIBLE, tiempo_limite := 0 }) ∧
    (now ≤ b.tiempo_limite → sweepOne now b = b) ∧
    liberar_reservas_expiradas now (liberar_reservas_expiradas now bs) =
      liberar_reservas_expiradas now bs := by
  refine ⟨rfl, ?_, ?_, liberar_idem now bs⟩
  · intro hlt
    unfold sweepOne
    rw [if_pos ⟨hr, hlt⟩]
  · intro hle
    apply sweepOne_of_not_expired
    omega

/-- Claim C5: purchase reads no clock; on any row currently RESERVADO —
whatever its deadline, in particular one in the past of every possible
clock value — it succeeds with VENDIDO and clears the deadline to 0. -/
theorem C5_comprar_ignora_reloj (bs : List Boleto) (n : String) (b : Boleto)
    (hfind : findB n bs = some b) (hr : b.estado = Estado.RESERVADO) :
    (comprar_boleto n bs).1 = ApiResult.success Estado.VENDIDO ∧
    findB n (comprar_boleto n bs).2 =
      some { b with estado := Estado.VENDIDO, tiempo_limite := 0 } ∧
    (∀ now : Nat, b.tiempo_limite < now →
      (comprar_boleto n bs).1 = ApiResult.success Estado.VENDIDO) := by
  have h1 : (comprar_boleto n bs).1 = ApiResult.success Estado.VENDIDO := by
    simp [comprar_boleto, hfind, hr]
  refine ⟨h1, ?_, fun now _ => h1⟩
  simp [comprar_boleto, hfind, hr, findB_setBoleto_self]

/-- Claim C8: the listing sweeps the full table first, so no returned row
is RESERVADO with a deadline strictly in the past of the sweep clock. -/
theorem C8_listado_sin_reservas_caducas (bs : List Boleto) (now : Nat) (b : Boleto)
    (hb : b ∈ get_boletos now bs) :
    ¬ (b.estado = Estado.RESERVADO ∧ b.tiempo_limite < now) := by
  simp only [get_boletos, liberar_reservas_expiradas, List.mem_map] at hb
  obtain ⟨a, ha, rfl⟩ := hb
  intro hc
  by_cases h : a.estado = Estado.RESERVADO ∧ a.tiempo_limite < now
  · unfold sweepOne at hc
    rw [if_pos h] at hc
    exact absurd hc.1 (by simp)
  · unfold sweepOne at hc
    rw [if_neg h] at hc
    exact h hc

/-- Claim C9: a label absent from the table makes both reserve and purchase
answer NotFound (HTTP 404), for every table state and clock value. -/
theorem C9_etiqueta_desconocida (bs : List Boleto) (n : String) (t : Nat)
    (h : findB n bs = none) :
    (reservar_boleto n t bs).1 = ApiResult.notFound ∧
    statusCode (reservar_boleto n t bs).1 = 404 ∧
    (comprar_boleto n bs).1 = ApiResult.notFound ∧
    statusCode (comprar_boleto n bs).1 = 404 := by
  have hsw : findB n (liberar_reservas_expiradas t bs) = none := by
    rw [findB_liberar, h]
    rfl
  have h1 : (reservar_boleto n t bs).1 = ApiResult.notFound := by
    simp [reservar_boleto, reservar_tras_limpieza, hsw]
  have h2 : (comprar_boleto n bs).1 = ApiResult.notFound := by
    simp [comprar_boleto, h]
  exact ⟨h1, by rw [h1]; rfl, h2, by rw [h2]; rfl⟩

/-- One step of any endpoint leaves a VENDIDO row exactly as it is. -/
theorem findB_applyOp_vendido (bs : List Boleto) (n : String) (b : Boleto) (o : Op)
    (hf : findB n bs = some b) (hv : b.estado = Estado.VENDIDO) :
    findB n (applyOp o bs) = some b := by
  have hsw : ∀ t, findB n (liberar_reservas_expiradas t bs) = some b := by
    intro t
    have hone : sweepOne t b = b := by
      apply sweepOne_of_ne_reservado
      rw [hv]
      intro hc
      cases hc
    rw [findB_liberar, hf]
    simp [hone]
  cases o with
  | lista t =>
    simp only [applyOp, get_boletos]
    exact hsw t
  | reserva m t =>
    simp only [applyOp]
    by_cases hmn : m = n
    · subst hmn
      have hne : ¬ b.estado = Estado.DISPONIBLE := by
        rw [hv]
        intro hc
        cases hc
      simp only [reservar_boleto, reservar_tras_limpieza, hsw t, if_neg hne]
    · cases hfm : findB m (liberar_reservas_expiradas t bs) with
      | none =>
        simp only [reservar_boleto, reservar_tras_limpieza, hfm]
        exact hsw t
      | some c =>
        by_cases hc : c.estado = Estado.DISPONIBLE
        · simp only [reservar_boleto, reservar_tras_limpieza, hfm]
          rw [if_pos hc]
          show findB n (setBoleto (liberar_reservas_expiradas t bs) m Estado.RESERVADO
            (t + RESERVA_DURACION_SEGUNDOS)) = some b
          rw [findB_setBoleto_other _ _ _ _ _ hmn]
          exact hsw t
        · simp only [reservar_boleto, reservar_tras_limpieza, hfm]
          rw [if_neg hc]
          exact hsw t
  | compra m =>
    simp only [applyOp]
    by_cases hmn : m = n
    · subst hmn
      have hne : ¬ b.estado = Estado.RESERVADO := by
        rw [hv]
        intro hc
        cases hc
      simp only [comprar_boleto, hf, if_neg hne]
    · cases hfm : findB m bs with
      | none =>
        simp only [comprar_boleto, hfm]
        exact hf
      | some c =>
        by_cases hc : c.estado = Estado.RESERVADO
        · simp only [comprar_boleto, hfm]
          rw [if_pos hc]
          show findB n (setBoleto bs m Estado.VENDIDO 0) = some b
          rw [findB_setBoleto_other _ _ _ _ _ hmn]
          exact hf
        · simp only [comprar_boleto, hfm]
          rw [if_neg hc]
          exact hf

/-- A whole sequence of endpoint calls leaves a VENDIDO row exactly as it is. -/
theorem findB_applyOps_vendido (ops : List Op) (bs : List Boleto) (n : String)
    (b : Boleto) (hf : findB n bs = some b) (hv : b.estado = Estado.VENDIDO) :
    findB n (applyOps ops bs) = some b := by
  induction ops generalizing bs with
  | nil => exact hf
  | cons o os ih => exact ih _ (findB_applyOp_vendido bs n b o hf hv)

/-- Claim C4: a successful purchase leaves the row VENDIDO with deadline 0,
and VENDIDO is absorbing: any later reserve answers Conflict(VENDIDO)
leaving the row as it is, any later purchase answers Conflict(VENDIDO)
leaving the whole table as it is, and no sequence of list/reserve/purchase
calls ever changes the row again. -/
theorem C4_vendido_absorbente (bs : List Boleto) (n : String) (b : Boleto)
    (hf : findB n bs = some b) (hv : b.estado = Estado.VENDIDO) :
    (∀ ops : List Op, findB n (applyOps ops bs) = some b) ∧
    (∀ t, (reservar_boleto n t bs).1 = ApiResult.conflict Estado.VENDIDO ∧
      findB n (reservar_boleto n t bs).2 = some b) ∧
    ((comprar_boleto n bs).1 = ApiResult.conflict Estado.VENDIDO ∧
      (comprar_boleto n bs).2 = bs) ∧
    (∀ bs2 c, findB n bs2 = some c → c.estado = Estado.RESERVADO →
      (comprar_boleto n bs2).1 = ApiResult.success Estado.VENDIDO ∧
      findB n (comprar_boleto n bs2).2 =
        some { c with estado := Estado.VENDIDO, tiempo_limite := 0 }) := by
  have hneD : ¬ b.estado = Estado.DISPONIBLE := by
    rw [hv]
    intro hc
    cases hc
  have hneR : ¬ b.estado = Estado.RESERVADO := by
    rw [hv]
    intro hc
    cases hc
  refine ⟨fun ops => findB_applyOps_vendido ops bs n b hf hv, ?_, ?_, ?_⟩
  · intro t
    have hsw : findB n (liberar_reservas_expiradas t bs) = some b := by
      have hone : sweepOne t b = b := by
        apply sweepOne_of_ne_reservado
        exact hneR
      rw [findB_liberar, hf]
      simp [hone]
    constructor
    · simp [reservar_boleto, reservar_tras_limpieza, hsw, hneD, hv]
    · simp only [reservar_boleto, reservar_tras_limpieza, hsw, if_neg hneD]
  · constructor
    · simp [comprar_boleto, hf, hneR, hv]
    · simp only [comprar_boleto, hf, if_neg hneR]
  · intro bs2 c hf2 hr2
    constructor
    · simp [comprar_boleto, hf2, hr2]
    · simp [comprar_boleto, hf2, hr2, findB_setBoleto_self]

/-- Claim C6 is false on the code: purchase does not first release the
expired reservation of the seat it touches.  On a one-seat table whose
reservation expired at time 5, a purchase at clock 10 succeeds and sells
the seat, where the claimed sweep-first behavior (`comprar_boleto_spec`)
would have released the seat and answered Conflict(DISPONIBLE). -/
theorem C6_contraejemplo :
    comprar_boleto "A1" mesaReservada ≠ comprar_boleto_spec "A1" 10 mesaReservada ∧
    (comprar_boleto "A1" mesaReservada).1 = ApiResult.success Estado.VENDIDO ∧
    (comprar_boleto "A1" mesaReservada).2 =
      [{ asiento := "A1", estado := Estado.VENDIDO, tiempo_limite := 0 }] ∧
    (comprar_boleto_spec "A1" 10 mesaReservada).1 =
      ApiResult.conflict Estado.DISPONIBLE := by
  decide

/-- Claim C6 amended: list and reserve run the full expiry sweep before
acting, but purchase runs none — it acts on the raw table, and its only
possible write is the sale of the named seat; it never releases an expired
reservation. -/
theorem C6_amended_limpieza_por_operacion (bs : List Boleto) (n : String) (t : Nat) :
    get_boletos t bs = liberar_reservas_expiradas t bs ∧
    reservar_boleto n t bs =
      reservar_tras_limpieza n t (liberar_reservas_expiradas t bs) ∧
    ((comprar_boleto n bs).2 = bs ∨
      ∃ b, findB n bs = some b ∧ b.estado = Estado.RESERVADO ∧
        (comprar_boleto n bs).2 = setBoleto bs n Estado.VENDIDO 0) := by
  refine ⟨rfl, rfl, ?_⟩
  cases hf : findB n bs with
  | none =>
    left
    rw [comprar_boleto_none bs n hf]
  | some b =>
    by_cases hr : b.estado = Estado.RESERVADO
    · right
      refine ⟨b, rfl, hr, ?_⟩
      rw [comprar_boleto_vende bs n b hf hr]
    · left
      rw [comprar_boleto_conflicto bs n b hf hr]

/-- Claim C7 is false on the code: the sweep run by reserve is the full
`liberar_reservas_expiradas`, not a single-seat one.  Reserving `A1` at
clock 10 on a table whose other seat `A2` holds a reservation expired at
time 5 changes `A2` to DISPONIBLE with deadline 0. -/
theorem C7_contraejemplo :
    findB "A2" mesa2 =
      some { asiento := "A2", estado := Estado.RESERVADO, tiempo_limite := 5 } ∧
    findB "A2" (reservar_boleto "A1" 10 mesa2).2 =
      some { asiento := "A2", estado := Estado.DISPONIBLE, tiempo_limite := 0 } ∧
    findB "A2" (reservar_boleto "A1" 10 mesa2).2 ≠ findB "A2" mesa2 := by
  decide

/-- Claim C7 amended: the sweep performed by reserve covers the whole
inventory: every seat other than the named one ends exactly as the sweep at
the call's clock leaves it — untouched unless it held an expired
reservation, which is released — and reserve's own status/deadline write
touches only the named seat. -/
theorem C7_amended_reserva_barre_todo (bs : List Boleto) (n : String) (t : Nat) :
    (reservar_boleto n t bs).2.length = bs.length ∧
    (∀ (i : Nat) (b : Boleto), bs[i]? = some b → b.asiento ≠ n →
      (reservar_boleto n t bs).2[i]? = some (sweepOne t b)) := by
  have hlim : ∀ (i : Nat) (b : Boleto), bs[i]? = some b →
      (liberar_reservas_expiradas t bs)[i]? = some (sweepOne t b) := by
    intro i b hb
    rw [liberar_getElem?, hb]
    rfl
  cases hf : findB n (liberar_reservas_expiradas t bs) with
  | none =>
    simp only [reservar_boleto, reservar_tras_limpieza, hf]
    refine ⟨liberar_length t bs, ?_⟩
    intro i b hb hbn
    exact hlim i b hb
  | some c =>
    by_cases hc : c.estado = Estado.DISPONIBLE
    · simp only [reservar_boleto, reservar_tras_limpieza, hf]
      rw [if_pos hc]
      constructor
      · show (setBoleto (liberar_reservas_expiradas t bs) n Estado.RESERVADO
          (t + RESERVA_DURACION_SEGUNDOS)).length = bs.length
        rw [setBoleto_length, liberar_length]
      · intro i b hb hbn
        show (setBoleto (liberar_reservas_expiradas t bs) n Estado.RESERVADO
          (t + RESERVA_DURACION_SEGUNDOS))[i]? = some (sweepOne t b)
        refine setBoleto_getElem?_other _ _ _ _ i (sweepOne t b) (hlim i b hb) ?_
        rw [sweepOne_asiento]
        exact hbn
    · simp only [reservar_boleto, reservar_tras_limpieza, hf]
      rw [if_neg hc]
      refine ⟨liberar_length t bs, ?_⟩
      intro i b hb hbn
      exact hlim i b hb

/-- Claim C10: purchase sweeps nothing and touches only the named seat —
every other position keeps its exact row in every outcome, and on NotFound
or Conflict the whole table is returned unchanged. -/
theorem C10_comprar_marco_minimo (bs : List Boleto) (n : String) :
    ((comprar_boleto n bs).1 = ApiResult.notFound → (comprar_boleto n bs).2 = bs) ∧
    (∀ e, (comprar_boleto n bs).1 = ApiResult.conflict e →
      (comprar_boleto n bs).2 = bs) ∧
    (comprar_boleto n bs).2.length = bs.length ∧
    (∀ (i : Nat) (b : Boleto), bs[i]? = some b → b.asiento ≠ n →
      (comprar_boleto n bs).2[i]? = some b) := by
  cases hf : findB n bs with
  | none =>
    rw [comprar_boleto_none bs n hf]
    refine ⟨fun _ => rfl, fun _ _ => rfl, rfl, ?_⟩
    intro i b hb hbn
    exact hb
  | some c =>
    by_cases hc : c.estado = Estado.RESERVADO
    · rw [comprar_boleto_vende bs n c hf hc]
      refine ⟨?_, ?_, ?_, ?_⟩
      · intro h
        exact ApiResult.noConfusion h
      · intro e h
        exact ApiResult.noConfusion h
      · exact setBoleto_length bs n Estado.VENDIDO 0
      · intro i b hb hbn
        exact setBoleto_getElem?_other _ _ _ _ i b hb hbn
    · rw [comprar_boleto_conflicto bs n c hf hc]
      refine ⟨fun _ => rfl, fun _ _ => rfl, rfl, ?_⟩
      intro i b hb hbn
      exact hb

/-! ## Concrete witnesses -/

/-- Concrete instance of claim C1 at table `mesa2`, seat A1, clock 100: the
reserve succeeds and a second reserve at clock 129 (before the deadline
130) conflicts. -/
theorem C1_reservar_disponible_luego_conflicto_witness :
    (reservar_boleto "A1" 100 mesa2).1 = ApiResult.success Estado.RESERVADO ∧
    (reservar_boleto "A1" 129 (reservar_boleto "A1" 100 mesa2).2).1 =
      ApiResult.conflict Estado.RESERVADO := by
  have h := C1_reservar_disponible_luego_conflicto mesa2 "A1" 100
    { asiento := "A1", estado := Estado.DISPONIBLE, tiempo_limite := 0 }
    (by decide) (by decide)
  exact ⟨h.2.1,
    (h.2.2.2 (reservar_boleto "A1" 100 mesa2).2 129 (by decide) h.2.2.1).1⟩

/-- Concrete instance of claim C2 at table `mesa2`. -/
theorem C2_invariante_tiempo_limite_witness :
    invTabla mesa2 ∧ invTabla (reservar_boleto "A1" 10 mesa2).2 :=
  ⟨by decide, (C2_invariante_tiempo_limite mesa2 "A1" 10 (by decide)).2.2.2.1⟩

/-- Concrete instance of claim C3: the reservation of `mesa2` expired at
time 5 is released by a sweep at clock 10, and the sweep at 10 is
idempotent on `mesa2`. -/
theorem C3_limpieza_puntual_idempotente_witness :
    sweepOne 10 { asiento := "A2", estado := Estado.RESERVADO, tiempo_limite := 5 } =
      { asiento := "A2", estado := Estado.DISPONIBLE, tiempo_limite := 0 } ∧
    liberar_reservas_expiradas 10 (liberar_reservas_expiradas 10 mesa2) =
      liberar_reservas_expiradas 10 mesa2 := by
  have h := C3_limpieza_puntual_idempotente
    { asiento := "A2", estado := Estado.RESERVADO, tiempo_limite := 5 } 10 mesa2
    (by decide)
  exact ⟨h.2.1 (by decide), h.2.2.2⟩

/-- Concrete instance of claim C4 at the sold seat of `mesaVendida`. -/
theorem C4_vendido_absorbente_witness :
    (comprar_boleto "A1" mesaVendida).1 = ApiResult.conflict Estado.VENDIDO ∧
    (reservar_boleto "A1" 50 mesaVendida).1 = ApiResult.conflict Estado.VENDIDO := by
  have h := C4_vendido_absorbente mesaVendida "A1"
    { asiento := "A1", estado := Estado.VENDIDO, tiempo_limite := 0 }
    (by decide) (by decide)
  exact ⟨h.2.2.1.1, (h.2.1 50).1⟩

/-- Concrete instance of claim C5: the reservation of `mesaReservada`
expired at time 5, yet a purchase — at clock 10, strictly past the
deadline — still succeeds. -/
theorem C5_comprar_ignora_reloj_witness :
    (comprar_boleto "A1" mesaReservada).1 = ApiResult.success Estado.VENDIDO := by
  have h := C5_comprar_ignora_reloj mesaReservada "A1"
    { asiento := "A1", estado := Estado.RESERVADO, tiempo_limite := 5 }
    (by decide) (by decide)
  exact h.2.2 10 (by decide)

/-- Concrete instance of the amended claim C7: reserving A1 on `mesa2` at
clock 10 leaves position 1 (seat A2) exactly as the full sweep leaves it. -/
theorem C7_amended_reserva_barre_todo_witness :
    (reservar_boleto "A1" 10 mesa2).2.length = mesa2.length ∧
    (reservar_boleto "A1" 10 mesa2).2[1]? =
      some (sweepOne 10
        { asiento := "A2", estado := Estado.RESERVADO, tiempo_limite := 5 }) := by
  have h := C7_amended_reserva_barre_todo mesa2 "A1" 10
  exact ⟨h.1, h.2 1 { asiento := "A2", estado := Estado.RESERVADO, tiempo_limite := 5 }
    (by decide) (by decide)⟩

/-- Concrete instance of claim C8: the released A2 row that the listing of
`mesa2` at clock 10 contains is not a stale reservation. -/
theorem C8_listado_sin_reservas_caducas_witness :
    ¬ (({ asiento := "A2", estado := Estado.DISPONIBLE, tiempo_limite := 0 } :
          Boleto).estado = Estado.RESERVADO ∧
       ({ asiento := "A2", estado := Estado.DISPONIBLE, tiempo_limite := 0 } :
          Boleto).tiempo_limite < 10) :=
  C8_listado_sin_reservas_caducas mesa2 10
    { asiento := "A2", estado := Estado.DISPONIBLE, tiempo_limite := 0 } (by decide)

/-- Concrete instance of claim C9 at the unknown label Z99. -/
theorem C9_etiqueta_desconocida_witness :
    (reservar_boleto "Z99" 10 mesa2).1 = ApiResult.notFound ∧
    statusCode (comprar_boleto "Z99" mesa2).1 = 404 := by
  have h := C9_etiqueta_desconocida mesa2 "Z99" 10 (by decide)
  exact ⟨h.1, h.2.2.2⟩

/-- Concrete instance of claim C10: the conflicting purchase of the
DISPONIBLE seat A1 of `mesa2` returns the table unchanged, in particular
the expired reservation at position 1. -/
theorem C10_comprar_marco_minimo_witness :
    (comprar_boleto "A1" mesa2).2 = mesa2 ∧
    (comprar_boleto "A1" mesa2).2[1]? =
      some { asiento := "A2", estado := Estado.RESERVADO, tiempo_limite := 5 } := by
  have h := C10_comprar_marco_minimo mesa2 "A1"
  exact ⟨h.2.1 Estado.DISPONIBLE (by decide),
    h.2.2.2 1 { asiento := "A2", estado := Estado.RESERVADO, tiempo_limite := 5 }
      (by decide) (by decide)⟩

end TuRifa
